import Mathlib

/-!
Shallow embedding of the AVIAITEmailTgBot core (`src/main.go`): the per-user
conversation state machine of the Telegram bot and the Unisender mailer
response classification. Machine integers (Go `int64` user/chat ids and email
ids) are modelled as `Int`; JSON bodies are modelled as values of an inductive
`Json` type (the integer fragment of JSON numbers, which is all the provider
protocol uses); the HTTP exchange is an oracle argument (`HttpResult`) passed
to the step function.
-/

namespace AviaBot

/-- JSON values, restricted to integer numerals (the provider `result`
payload is an array of integer ids or an object). -/
inductive Json where
  | null : Json
  | bool (b : Bool) : Json
  | num (n : Int) : Json
  | str (s : String) : Json
  | arr (elems : List Json) : Json
  | obj (fields : List (String × Json)) : Json

/-- Last binding of `key` among `fields` (Go `encoding/json` keeps the last
occurrence of a duplicated key). -/
def lookupField (fields : List (String × Json)) (key : String) : Option Json :=
  fields.foldl (fun acc kv => if kv.1 = key then some kv.2 else acc) none

/-- Embeds Go struct `UnisenderResponse { Result json.RawMessage; Error string }`.
`result = none` models a `nil` `RawMessage` (field absent from the JSON). -/
structure UnisenderResponse where
  result : Option Json
  error : String

/-- Embeds `json.Decode` of a response body into `UnisenderResponse`: an object
(or `null`) decodes, with `error` required to be a string (or `null`/absent);
any other JSON shape is a decoding error. -/
def decodeUnisenderResponse : Json → Option UnisenderResponse
  | Json.null => some ⟨none, ""⟩
  | Json.obj fields =>
      match lookupField fields "error" with
      | none => some ⟨lookupField fields "result", ""⟩
      | some Json.null => some ⟨lookupField fields "result", ""⟩
      | some (Json.str e) => some ⟨lookupField fields "result", e⟩
      | some _ => none
  | _ => none

/-- Embeds `json.Unmarshal(result.Result, &emailIDs)` with `emailIDs : []int64`:
`none` (a `nil` raw message) is an error, JSON `null` yields the empty slice,
an array of numerals yields the ids (a `null` element leaves a zero id, as Go
does), and every other shape is an error. -/
def unmarshalInt64Array : Option Json → Option (List Int)
  | none => none
  | some Json.null => some []
  | some (Json.arr elems) =>
      elems.mapM fun e =>
        match e with
        | Json.num n => some n
        | Json.null => some 0
        | _ => none
  | some _ => none

/-- The possible results of the HTTP POST to the provider, as seen by
`SendEmailViaUnisender`: a connection error, a body that is not valid JSON
(with the decoder error detail), or a JSON body. -/
inductive HttpResult where
  | connError (detail : String)
  | invalidJsonBody (detail : String)
  | body (j : Json)

/-- Embeds `SendEmailViaUnisender` (main.go:78-115): builds the form-encoded
request and either fails (HTTP error, body that does not decode into
`UnisenderResponse`) or returns the decoded response. The first component is
the submitted form data, the second the Go `(*UnisenderResponse, error)` pair. -/
def SendEmailViaUnisender (apiKey targetEmail senderEmail subject body senderName : String)
    (http : HttpResult) : List (String × String) × Except String UnisenderResponse :=
  let data := [("format", "json"), ("api_key", apiKey), ("sender_name", senderName),
    ("sender_email", senderEmail), ("email", targetEmail), ("subject", subject),
    ("body", body), ("list_id", "1"), ("error_checking", "1")]
  match http with
  | HttpResult.connError detail =>
      (data, Except.error ("ошибка HTTP запроса: " ++ detail))
  | HttpResult.invalidJsonBody detail =>
      (data, Except.error ("ошибка декодирования ответа: " ++ detail))
  | HttpResult.body j =>
      match decodeUnisenderResponse j with
      | none => (data, Except.error "ошибка декодирования ответа: несоответствие типа")
      | some r => (data, Except.ok r)

/-- The `EmailSendOutcome` taxonomy of the spec for a send attempt. -/
inductive EmailSendOutcome where
  | transportError (detail : String)
  | providerError (message : String)
  | success (id : Int)
  | ambiguousSuccess
deriving DecidableEq

/-- Embeds the outcome branching of main.go:247-269: a Go-level error is a
transport error; a non-empty top-level `error` string is a provider error;
otherwise a result payload unmarshalling to a non-empty id list is a success
carrying the first id, and anything else is the ambiguous-success case. -/
def classifyOutcome : Except String UnisenderResponse → EmailSendOutcome
  | Except.error e => EmailSendOutcome.transportError e
  | Except.ok r =>
      if r.error ≠ "" then EmailSendOutcome.providerError r.error
      else
        match unmarshalInt64Array r.result with
        | some (firstId :: _) => EmailSendOutcome.success firstId
        | _ => EmailSendOutcome.ambiguousSuccess

/-- The user-facing `finalMsgText` built in main.go:249-268 for each outcome. -/
def outcomeText : EmailSendOutcome → String
  | EmailSendOutcome.transportError e => "Ошибка при отправке письма: " ++ e
  | EmailSendOutcome.providerError m => "Ошибка API Unisender: " ++ m
  | EmailSendOutcome.success id => "Письмо успешно отправлено, ID: " ++ toString id
  | EmailSendOutcome.ambiguousSuccess => "Письмо успешно отправлено!"

/-- Embeds `strings.TrimSpace`: removes leading and trailing whitespace
characters from a string. -/
def trimSpace (s : String) : String :=
  String.mk (((s.data.dropWhile Char.isWhitespace).reverse.dropWhile Char.isWhitespace).reverse)

/-- The label of the single reply-keyboard button (`NEW_LETTER_BUTTON_TEXT`). -/
def NEW_LETTER_BUTTON_TEXT : String := "Новое Письмо"

/-- Embeds Go struct `UserState`: the per-user record of the conversation. -/
structure UserState where
  state : String
  subject : String
  body : String
  senderName : String
deriving DecidableEq

/-- The per-user state map `states : map[int64]*UserState`, as a function from
user ids to optional records. -/
abbrev States : Type := Int → Option UserState

/-- Map update `states[userID] = s`. -/
def setState (st : States) (uid : Int) (s : UserState) : States :=
  fun u => if u = uid then some s else st u

/-- The reply markup attached to an outbound message: none, the one-button
`initialKeyboard`, or `tgbotapi.NewRemoveKeyboard`. -/
inductive ReplyMarkup where
  | plain
  | initialKeyboard
  | removeKeyboard
deriving DecidableEq

/-- An outbound chat message: chat id, text, reply markup. -/
structure OutMessage where
  chatId : Int
  text : String
  markup : ReplyMarkup
deriving DecidableEq

/-- The fields of an inbound text message the loop reads: `From.ID`,
`Chat.ID`, `Text`. -/
structure IncomingMessage where
  userId : Int
  chatId : Int
  text : String

/-- The configuration the loop body uses for a send. -/
structure Secrets where
  unisenderAPIKey : String
  targetEmail : String
  senderEmail : String

/-- Greeting sent by the `/start` branch (main.go:202). -/
def startGreeting : String :=
  "Привет! Нажмите кнопку \x27Новое Письмо\x27, чтобы начать отправку."

/-- Re-prompt sent when no record exists or stray text arrives in `initial`
(main.go:215). -/
def startReprompt : String :=
  "Пожалуйста, начните с команды /start или нажмите \x27Новое Письмо\x27."

/-- Suffix appended to the final outcome line (main.go:276). -/
def finalSuffix : String :=
  "\nХотите отправить ещё одно письмо? Нажмите \x27Новое Письмо\x27."

/-- Embeds one iteration of the update loop (main.go:187-280). Input: the
configuration, the HTTP oracle for a potential send, the state map, and the
update (`none` models `update.Message == nil`; a message event that carries
no text, such as a photo or sticker, has `Text == ""` in the Telegram API
and is modelled as `some m` with `m.text` empty). Output: the new state map,
the outbound chat messages of this iteration in order, and the form data of
each email-provider request issued. -/
def processUpdate (secrets : Secrets) (http : HttpResult) (states : States)
    (update : Option IncomingMessage) :
    States × List OutMessage × List (List (String × String)) :=
  match update with
  | none => (states, [], [])
  | some m =>
    let text := trimSpace m.text
    if text = "/start" then
      (setState states m.userId ⟨"initial", "", "", ""⟩,
       [⟨m.chatId, startGreeting, ReplyMarkup.initialKeyboard⟩], [])
    else
      match states m.userId with
      | none =>
          (setState states m.userId ⟨"initial", "", "", ""⟩,
           [⟨m.chatId, startReprompt, ReplyMarkup.initialKeyboard⟩], [])
      | some s =>
          if s.state = "initial" ∧ text ≠ NEW_LETTER_BUTTON_TEXT then
            (states, [⟨m.chatId, startReprompt, ReplyMarkup.initialKeyboard⟩], [])
          else if s.state = "initial" then
            (setState states m.userId { s with state := "await_subject" },
             [⟨m.chatId, "Введите тему письма.", ReplyMarkup.removeKeyboard⟩], [])
          else if s.state = "await_subject" then
            (setState states m.userId { s with subject := text, state := "await_body" },
             [⟨m.chatId, "Введите текст письма.", ReplyMarkup.plain⟩], [])
          else if s.state = "await_body" then
            (setState states m.userId { s with body := text, state := "await_sender" },
             [⟨m.chatId, "Укажите имя отправителя.", ReplyMarkup.plain⟩], [])
          else if s.state = "await_sender" then
            let s1 := { s with senderName := text }
            let sendResult := SendEmailViaUnisender secrets.unisenderAPIKey
              secrets.targetEmail secrets.senderEmail s1.subject s1.body s1.senderName http
            let finalMsgText := outcomeText (classifyOutcome sendResult.2)
            (setState states m.userId { s1 with state := "initial" },
             [⟨m.chatId, "Отправляю письмо...", ReplyMarkup.plain⟩,
              ⟨m.chatId, finalMsgText ++ finalSuffix, ReplyMarkup.initialKeyboard⟩],
             [sendResult.1])
          else
            (states, [], [])

/-- Processes a list of updates in arrival order, with a fixed HTTP oracle,
accumulating the outbound chat messages and email requests. -/
def processUpdates (secrets : Secrets) (http : HttpResult) (states : States) :
    List (Option IncomingMessage) → States × List OutMessage × List (List (String × String))
  | [] => (states, [], [])
  | u :: rest =>
      let r1 := processUpdate secrets http states u
      let r2 := processUpdates secrets http r1.1 rest
      (r2.1, r1.2.1 ++ r2.2.1, r1.2.2 ++ r2.2.2)

/-- A state map holding a single record, for user id 0. -/
def singleUser (s : UserState) : States :=
  fun u => if u = 0 then some s else none

/-- A sample configuration used to instantiate universally quantified
theorems at concrete inputs. -/
def sampleSecrets : Secrets := ⟨"key", "target@example.com", "sender@example.com"⟩

/-- A sample successful provider response: `{"result": [7], "error": ""}`. -/
def sampleHttp : HttpResult :=
  HttpResult.body (Json.obj [("result", Json.arr [Json.num 7]), ("error", Json.str "")])

/-! Branch lemmas: one per arm of the update loop. -/

/-- A `nil` update is skipped. -/
theorem processUpdate_skip (secrets : Secrets) (http : HttpResult) (st : States) :
    processUpdate secrets http st none = (st, [], []) := rfl

/-- The `/start` branch (main.go:199-206). -/
theorem processUpdate_start (secrets : Secrets) (http : HttpResult) (st : States)
    (m : IncomingMessage) (h : trimSpace m.text = "/start") :
    processUpdate secrets http st (some m) =
      (setState st m.userId ⟨"initial", "", "", ""⟩,
       [⟨m.chatId, startGreeting, ReplyMarkup.initialKeyboard⟩], []) := by
  simp [processUpdate, h]

/-- The no-record branch (main.go:209-219, `!exists`). -/
theorem processUpdate_noRecord (secrets : Secrets) (http : HttpResult) (st : States)
    (m : IncomingMessage) (h1 : trimSpace m.text ≠ "/start") (h2 : st m.userId = none) :
    processUpdate secrets http st (some m) =
      (setState st m.userId ⟨"initial", "", "", ""⟩,
       [⟨m.chatId, startReprompt, ReplyMarkup.initialKeyboard⟩], []) := by
  simp [processUpdate, h1, h2]

/-- The stray-text-in-initial branch (main.go:209-219, record exists). -/
theorem processUpdate_stray (secrets : Secrets) (http : HttpResult) (st : States)
    (m : IncomingMessage) (s : UserState) (h1 : trimSpace m.text ≠ "/start")
    (h2 : st m.userId = some s) (h3 : s.state = "initial")
    (h4 : trimSpace m.text ≠ NEW_LETTER_BUTTON_TEXT) :
    processUpdate secrets http st (some m) =
      (st, [⟨m.chatId, startReprompt, ReplyMarkup.initialKeyboard⟩], []) := by
  simp [processUpdate, h1, h2, h3, h4]

/-- The `initial` case of the switch, reached when the text is the button
label (main.go:223-228). -/
theorem processUpdate_newLetter (secrets : Secrets) (http : HttpResult) (st : States)
    (m : IncomingMessage) (s : UserState) (h2 : st m.userId = some s)
    (h3 : s.state = "initial") (h4 : trimSpace m.text = NEW_LETTER_BUTTON_TEXT) :
    processUpdate secrets http st (some m) =
      (setState st m.userId { s with state := "await_subject" },
       [⟨m.chatId, "Введите тему письма.", ReplyMarkup.removeKeyboard⟩], []) := by
  have h1 : trimSpace m.text ≠ "/start" := by rw [h4]; decide
  simp [processUpdate, h1, h2, h3, h4]
  decide

/-- The `await_subject` case of the switch (main.go:230-233). -/
theorem processUpdate_awaitSubject (secrets : Secrets) (http : HttpResult) (st : States)
    (m : IncomingMessage) (s : UserState) (h1 : trimSpace m.text ≠ "/start")
    (h2 : st m.userId = some s) (h3 : s.state = "await_subject") :
    processUpdate secrets http st (some m) =
      (setState st m.userId { s with subject := trimSpace m.text, state := "await_body" },
       [⟨m.chatId, "Введите текст письма.", ReplyMarkup.plain⟩], []) := by
  simp [processUpdate, h1, h2, h3]

/-- The `await_body` case of the switch (main.go:235-238). -/
theorem processUpdate_awaitBody (secrets : Secrets) (http : HttpResult) (st : States)
    (m : IncomingMessage) (s : UserState) (h1 : trimSpace m.text ≠ "/start")
    (h2 : st m.userId = some s) (h3 : s.state = "await_body") :
    processUpdate secrets http st (some m) =
      (setState st m.userId { s with body := trimSpace m.text, state := "await_sender" },
       [⟨m.chatId, "Укажите имя отправителя.", ReplyMarkup.plain⟩], []) := by
  simp [processUpdate, h1, h2, h3]

/-- The `await_sender` case of the switch (main.go:240-278): the send attempt. -/
theorem processUpdate_awaitSender (secrets : Secrets) (http : HttpResult) (st : States)
    (m : IncomingMessage) (s : UserState) (h1 : trimSpace m.text ≠ "/start")
    (h2 : st m.userId = some s) (h3 : s.state = "await_sender") :
    processUpdate secrets http st (some m) =
      (setState st m.userId ⟨"initial", s.subject, s.body, trimSpace m.text⟩,
       [⟨m.chatId, "Отправляю письмо...", ReplyMarkup.plain⟩,
        ⟨m.chatId,
          outcomeText (classifyOutcome (SendEmailViaUnisender secrets.unisenderAPIKey
            secrets.targetEmail secrets.senderEmail s.subject s.body
            (trimSpace m.text) http).2) ++ finalSuffix,
          ReplyMarkup.initialKeyboard⟩],
       [(SendEmailViaUnisender secrets.unisenderAPIKey secrets.targetEmail
          secrets.senderEmail s.subject s.body (trimSpace m.text) http).1]) := by
  simp [processUpdate, h1, h2, h3]

/-- The form data submitted by `SendEmailViaUnisender` is the same for every
HTTP outcome: the nine fixed key-value pairs of main.go:81-91. -/
theorem sendEmail_formData (apiKey targetEmail senderEmail subject body senderName : String)
    (http : HttpResult) :
    (SendEmailViaUnisender apiKey targetEmail senderEmail subject body senderName http).1 =
      [("format", "json"), ("api_key", apiKey), ("sender_name", senderName),
       ("sender_email", senderEmail), ("email", targetEmail), ("subject", subject),
       ("body", body), ("list_id", "1"), ("error_checking", "1")] := by
  cases http with
  | connError d => rfl
  | invalidJsonBody d => rfl
  | body j =>
      simp only [SendEmailViaUnisender]
      cases decodeUnisenderResponse j <;> rfl

/-- Two string appends differ when their left parts differ at a position
present in both. -/
theorem append_ne_of_data_get_ne (p a q b : String) (i : Nat)
    (hp : i < p.data.length) (hq : i < q.data.length)
    (hne : p.data[i]? ≠ q.data[i]?) : p ++ a ≠ q ++ b := by
  intro h
  have hd : p.data ++ a.data = q.data ++ b.data := by
    have h2 := congrArg String.data h
    simpa [String.data_append] using h2
  have h1 : (p.data ++ a.data)[i]? = p.data[i]? := List.getElem?_append_left hp
  have h3 : (q.data ++ b.data)[i]? = q.data[i]? := List.getElem?_append_left hq
  exact hne (by rw [← h1, hd, h3])

/-- A string append differs from a fixed string that differs from the left
part at a position present in both. -/
theorem append_ne_of_data_get_ne_right (p a q : String) (i : Nat)
    (hp : i < p.data.length) (hne : p.data[i]? ≠ q.data[i]?) : p ++ a ≠ q := by
  intro h
  have hd : p.data ++ a.data = q.data := by
    have h2 := congrArg String.data h
    simpa [String.data_append] using h2
  have h1 : (p.data ++ a.data)[i]? = p.data[i]? := List.getElem?_append_left hp
  exact hne (by rw [← h1, hd])

/-! Claim theorems. -/

/-- Claim C4: for every user — with or without a record, in any phase —
processing the start command `/start` sets the record to phase `initial`,
emits exactly one greeting carrying the one-button keyboard, and issues no
email request. -/
theorem C4_start_command (secrets : Secrets) (http : HttpResult) (st : States)
    (m : IncomingMessage) (h : m.text = "/start") :
    (processUpdate secrets http st (some m)).1 m.userId = some ⟨"initial", "", "", ""⟩ ∧
    (processUpdate secrets http st (some m)).2.1 =
      [⟨m.chatId, startGreeting, ReplyMarkup.initialKeyboard⟩] ∧
    (processUpdate secrets http st (some m)).2.2 = [] := by
  have ht : trimSpace m.text = "/start" := by rw [h]; rfl
  rw [processUpdate_start secrets http st m ht]
  refine ⟨?_, rfl, rfl⟩
  simp [setState]

/-- Witness for C4: a user whose record sits mid-cycle at `await_body` with
populated fields sends `/start`. -/
theorem C4_witness :
    (processUpdate sampleSecrets sampleHttp
        (singleUser ⟨"await_body", "old subject", "old body", "old name"⟩)
        (some ⟨0, 0, "/start"⟩)).1 0 = some ⟨"initial", "", "", ""⟩ ∧
    (processUpdate sampleSecrets sampleHttp
        (singleUser ⟨"await_body", "old subject", "old body", "old name"⟩)
        (some ⟨0, 0, "/start"⟩)).2.1 =
      [⟨0, startGreeting, ReplyMarkup.initialKeyboard⟩] ∧
    (processUpdate sampleSecrets sampleHttp
        (singleUser ⟨"await_body", "old subject", "old body", "old name"⟩)
        (some ⟨0, 0, "/start"⟩)).2.2 = [] :=
  C4_start_command sampleSecrets sampleHttp
    (singleUser ⟨"await_body", "old subject", "old body", "old name"⟩) ⟨0, 0, "/start"⟩ rfl

/-- Counterexample to claim C8 as stated: a non-text message event — a photo
or sticker arrives as a message whose text is empty — is not ignored. For a
user at phase `await_subject` it overwrites the subject with the empty
string, advances the phase to `await_body`, and emits the body prompt, so
the record does not stay unchanged and a chat message is emitted. -/
theorem C8_counterexample :
    (processUpdate sampleSecrets sampleHttp (singleUser ⟨"await_subject", "x", "", ""⟩)
        (some ⟨0, 0, ""⟩)).1 0 = some ⟨"await_body", "", "", ""⟩ ∧
    (processUpdate sampleSecrets sampleHttp (singleUser ⟨"await_subject", "x", "", ""⟩)
        (some ⟨0, 0, ""⟩)).2.1 = [⟨0, "Введите текст письма.", ReplyMarkup.plain⟩] :=
  ⟨by decide, by decide⟩

/-- Claim C8 as amended: for every inbound event that carries no message
payload at all (`update.Message == nil`), the loop leaves every record
unchanged and emits no chat message and no email request; a message event
whose text is empty is instead dispatched like ordinary text. -/
theorem C8_amended (secrets : Secrets) (http : HttpResult) (st : States) :
    processUpdate secrets http st none = (st, [], []) ∧
    (∀ u, (processUpdate secrets http st none).1 u = st u) ∧
    (processUpdate secrets http st none).2.1 = [] ∧
    (processUpdate secrets http st none).2.2 = [] :=
  ⟨rfl, fun _ => rfl, rfl, rfl⟩

/-- Claim C9: when a record at phase `initial` receives the button label, only
the phase changes to `await_subject`; the stale `subject`, `body` and
`senderName` fields are retained unchanged. -/
theorem C9_button_changes_only_phase (secrets : Secrets) (http : HttpResult) (st : States)
    (m : IncomingMessage) (s : UserState) (h2 : st m.userId = some s)
    (h3 : s.state = "initial") (h4 : trimSpace m.text = NEW_LETTER_BUTTON_TEXT) :
    (processUpdate secrets http st (some m)).1 m.userId =
      some ⟨"await_subject", s.subject, s.body, s.senderName⟩ := by
  rw [processUpdate_newLetter secrets http st m s h2 h3 h4]
  simp [setState]

/-- Witness for C9: a record with stale fields from an earlier cycle receives
the button label. -/
theorem C9_witness :
    (processUpdate sampleSecrets sampleHttp
        (singleUser ⟨"initial", "stale subject", "stale body", "stale name"⟩)
        (some ⟨0, 0, "Новое Письмо"⟩)).1 0 =
      some ⟨"await_subject", "stale subject", "stale body", "stale name"⟩ :=
  C9_button_changes_only_phase sampleSecrets sampleHttp
    (singleUser ⟨"initial", "stale subject", "stale body", "stale name"⟩)
    ⟨0, 0, "Новое Письмо"⟩ ⟨"initial", "stale subject", "stale body", "stale name"⟩
    rfl rfl rfl

/-- Claim C10: in every phase, a message whose whitespace-trimmed text is
`/start` is handled before the state-machine dispatch: the record of the user is
replaced by a fresh `initial` record with empty fields, the text is stored
nowhere, no email request is issued, and the records of other users are
untouched. -/
theorem C10_start_overrides_every_phase (secrets : Secrets) (http : HttpResult) (st : States)
    (m : IncomingMessage) (h : trimSpace m.text = "/start") :
    processUpdate secrets http st (some m) =
      (setState st m.userId ⟨"initial", "", "", ""⟩,
       [⟨m.chatId, startGreeting, ReplyMarkup.initialKeyboard⟩], []) ∧
    (processUpdate secrets http st (some m)).1 m.userId = some ⟨"initial", "", "", ""⟩ ∧
    (∀ u, u ≠ m.userId → (processUpdate secrets http st (some m)).1 u = st u) := by
  have e := processUpdate_start secrets http st m h
  refine ⟨e, ?_, ?_⟩
  · rw [e]; simp [setState]
  · intro u hu; rw [e]; simp [setState, hu]

/-- Witness for C10: a record at `await_sender` with populated fields receives
`" /start "`, whose trimmed text is the start command. -/
theorem C10_witness :
    processUpdate sampleSecrets sampleHttp (singleUser ⟨"await_sender", "subj", "bdy", ""⟩)
        (some ⟨0, 0, " /start "⟩) =
      (setState (singleUser ⟨"await_sender", "subj", "bdy", ""⟩) 0 ⟨"initial", "", "", ""⟩,
       [⟨0, startGreeting, ReplyMarkup.initialKeyboard⟩], []) ∧
    (processUpdate sampleSecrets sampleHttp (singleUser ⟨"await_sender", "subj", "bdy", ""⟩)
        (some ⟨0, 0, " /start "⟩)).1 0 = some ⟨"initial", "", "", ""⟩ ∧
    (∀ u, u ≠ (0 : Int) →
      (processUpdate sampleSecrets sampleHttp (singleUser ⟨"await_sender", "subj", "bdy", ""⟩)
        (some ⟨0, 0, " /start "⟩)).1 u = singleUser ⟨"await_sender", "subj", "bdy", ""⟩ u) :=
  C10_start_overrides_every_phase sampleSecrets sampleHttp
    (singleUser ⟨"await_sender", "subj", "bdy", ""⟩) ⟨0, 0, " /start "⟩ rfl

/-- Counterexample to claim C5 as stated: the raw text `" Новое Письмо "` is
neither the start command nor the affordance label, yet processing it for a
user at phase `initial` advances the phase to `await_subject` and emits the
subject prompt, not the re-prompt — because the loop compares the
whitespace-trimmed text against the label. -/
theorem C5_counterexample :
    (" Новое Письмо " : String) ≠ "/start" ∧
    (" Новое Письмо " : String) ≠ NEW_LETTER_BUTTON_TEXT ∧
    (processUpdate sampleSecrets sampleHttp (singleUser ⟨"initial", "", "", ""⟩)
        (some ⟨0, 0, " Новое Письмо "⟩)).1 0 = some ⟨"await_subject", "", "", ""⟩ ∧
    (processUpdate sampleSecrets sampleHttp (singleUser ⟨"initial", "", "", ""⟩)
        (some ⟨0, 0, " Новое Письмо "⟩)).2.1 =
      [⟨0, "Введите тему письма.", ReplyMarkup.removeKeyboard⟩] :=
  ⟨by decide, by decide, by decide, by decide⟩

/-- Claim C5 as amended: for a user with no record, or with a record at phase
`initial`, whose *whitespace-trimmed* text is neither `/start` nor the button
label, processing emits exactly one re-prompt, issues no email request,
leaves an existing record map untouched (so the phase stays `initial`), and
creates a fresh `initial` record when none existed. -/
theorem C5_amended (secrets : Secrets) (http : HttpResult) (st : States)
    (m : IncomingMessage) (h1 : trimSpace m.text ≠ "/start")
    (h2 : trimSpace m.text ≠ NEW_LETTER_BUTTON_TEXT)
    (h3 : st m.userId = none ∨ ∃ s, st m.userId = some s ∧ s.state = "initial") :
    (processUpdate secrets http st (some m)).2.1 =
      [⟨m.chatId, startReprompt, ReplyMarkup.initialKeyboard⟩] ∧
    (processUpdate secrets http st (some m)).2.2 = [] ∧
    ((processUpdate secrets http st (some m)).1 m.userId).map UserState.state =
      some "initial" ∧
    (st m.userId = none →
      (processUpdate secrets http st (some m)).1 m.userId = some ⟨"initial", "", "", ""⟩) ∧
    (∀ s, st m.userId = some s → (processUpdate secrets http st (some m)).1 = st) := by
  rcases h3 with hnone | ⟨s, hs, hini⟩
  · have e := processUpdate_noRecord secrets http st m h1 hnone
    rw [e]
    refine ⟨rfl, rfl, by simp [setState], fun _ => by simp [setState], ?_⟩
    intro s hs
    rw [hnone] at hs
    exact absurd hs (by simp)
  · have e := processUpdate_stray secrets http st m s h1 hs hini h2
    rw [e]
    refine ⟨rfl, rfl, by simp [hs, hini], ?_, fun _ _ => rfl⟩
    intro hnone
    rw [hnone] at hs
    exact absurd hs (by simp)

/-- Witness for C5: a brand-new user (no record) sends stray text `"foo"`. -/
theorem C5_witness :
    (processUpdate sampleSecrets sampleHttp (fun _ => none) (some ⟨0, 0, "foo"⟩)).2.1 =
      [⟨0, startReprompt, ReplyMarkup.initialKeyboard⟩] ∧
    (processUpdate sampleSecrets sampleHttp (fun _ => none) (some ⟨0, 0, "foo"⟩)).2.2 = [] ∧
    ((processUpdate sampleSecrets sampleHttp (fun _ => none) (some ⟨0, 0, "foo"⟩)).1 0).map
      UserState.state = some "initial" ∧
    ((fun (_ : Int) => (none : Option UserState)) 0 = none →
      (processUpdate sampleSecrets sampleHttp (fun _ => none) (some ⟨0, 0, "foo"⟩)).1 0 =
        some ⟨"initial", "", "", ""⟩) ∧
    (∀ s, (fun (_ : Int) => (none : Option UserState)) 0 = some s →
      (processUpdate sampleSecrets sampleHttp (fun _ => none) (some ⟨0, 0, "foo"⟩)).1 =
        fun _ => none) :=
  C5_amended sampleSecrets sampleHttp (fun _ => none) ⟨0, 0, "foo"⟩
    (by decide) (by decide) (Or.inl rfl)

/-- Counterexample to claim C6 as stated: in phase `await_subject` the inbound
text `" Hello "` is stored as `"Hello"` — the loop trims leading and trailing
whitespace before storing, so the field does not equal the text exactly as
received. -/
theorem C6_counterexample :
    (processUpdate sampleSecrets sampleHttp (singleUser ⟨"await_subject", "", "", ""⟩)
        (some ⟨0, 0, " Hello "⟩)).1 0 = some ⟨"await_body", "Hello", "", ""⟩ ∧
    ("Hello" : String) ≠ " Hello " :=
  ⟨rfl, by decide⟩

/-- Claim C6 as amended: in phases `await_subject`, `await_body` and
`await_sender` the stored field (`subject`, `body`, `senderName`) equals the
whitespace-trimmed inbound text; no other validation or modification is
applied. -/
theorem C6_amended (secrets : Secrets) (http : HttpResult) (st : States)
    (m : IncomingMessage) (s : UserState) (h1 : trimSpace m.text ≠ "/start")
    (h2 : st m.userId = some s) :
    (s.state = "await_subject" →
      ((processUpdate secrets http st (some m)).1 m.userId).map UserState.subject =
        some (trimSpace m.text)) ∧
    (s.state = "await_body" →
      ((processUpdate secrets http st (some m)).1 m.userId).map UserState.body =
        some (trimSpace m.text)) ∧
    (s.state = "await_sender" →
      ((processUpdate secrets http st (some m)).1 m.userId).map UserState.senderName =
        some (trimSpace m.text)) := by
  refine ⟨fun h3 => ?_, fun h3 => ?_, fun h3 => ?_⟩
  · rw [processUpdate_awaitSubject secrets http st m s h1 h2 h3]; simp [setState]
  · rw [processUpdate_awaitBody secrets http st m s h1 h2 h3]; simp [setState]
  · rw [processUpdate_awaitSender secrets http st m s h1 h2 h3]; simp [setState]

/-- Witness for C6: a user at `await_body` sends `"World"`, which is stored
as the body. -/
theorem C6_witness :
    ((processUpdate sampleSecrets sampleHttp (singleUser ⟨"await_body", "Hello", "", ""⟩)
        (some ⟨0, 0, "World"⟩)).1 0).map UserState.body = some (trimSpace "World") :=
  (C6_amended sampleSecrets sampleHttp (singleUser ⟨"await_body", "Hello", "", ""⟩)
    ⟨0, 0, "World"⟩ ⟨"await_body", "Hello", "", ""⟩ (by decide) rfl).2.1 rfl

/-- Counterexample to claim C7 as stated: the outcome line for an ambiguous
success is not identical to the line for an ordinary success. -/
theorem C7_counterexample :
    outcomeText EmailSendOutcome.ambiguousSuccess ≠
      outcomeText (EmailSendOutcome.success 123) := by decide

/-- Claim C7 as amended: every send attempt produces exactly one outcome line
(the second and final message of the send branch); the transport, provider
and success wordings are pairwise distinct; the ambiguous-success line is the
generic success wording «Письмо успешно отправлено!» — success-worded, but
omitting the id and hence not identical to an ordinary success line. -/
theorem C7_amended (secrets : Secrets) (http : HttpResult) (st : States)
    (m : IncomingMessage) (s : UserState) (h1 : trimSpace m.text ≠ "/start")
    (h2 : st m.userId = some s) (h3 : s.state = "await_sender") :
    (∃ o, (processUpdate secrets http st (some m)).2.1 =
      [⟨m.chatId, "Отправляю письмо...", ReplyMarkup.plain⟩,
       ⟨m.chatId, outcomeText o ++ finalSuffix, ReplyMarkup.initialKeyboard⟩]) ∧
    (∀ d msg, outcomeText (EmailSendOutcome.transportError d) ≠
      outcomeText (EmailSendOutcome.providerError msg)) ∧
    (∀ d i, outcomeText (EmailSendOutcome.transportError d) ≠
      outcomeText (EmailSendOutcome.success i)) ∧
    (∀ msg i, outcomeText (EmailSendOutcome.providerError msg) ≠
      outcomeText (EmailSendOutcome.success i)) ∧
    (∀ d, outcomeText (EmailSendOutcome.transportError d) ≠
      outcomeText EmailSendOutcome.ambiguousSuccess) ∧
    (∀ msg, outcomeText (EmailSendOutcome.providerError msg) ≠
      outcomeText EmailSendOutcome.ambiguousSuccess) ∧
    outcomeText EmailSendOutcome.ambiguousSuccess = "Письмо успешно отправлено!" ∧
    (∀ i, outcomeText (EmailSendOutcome.success i) =
      "Письмо успешно отправлено, ID: " ++ toString i) ∧
    (∀ i, outcomeText (EmailSendOutcome.success i) ≠
      outcomeText EmailSendOutcome.ambiguousSuccess) := by
  refine ⟨?_, ?_, ?_, ?_, ?_, ?_, rfl, fun _ => rfl, ?_⟩
  · rw [processUpdate_awaitSender secrets http st m s h1 h2 h3]
    exact ⟨_, rfl⟩
  · intro d msg
    exact append_ne_of_data_get_ne _ _ _ _ 7 (by decide) (by decide) (by decide)
  · intro d i
    exact append_ne_of_data_get_ne _ _ _ _ 0 (by decide) (by decide) (by decide)
  · intro msg i
    exact append_ne_of_data_get_ne _ _ _ _ 0 (by decide) (by decide) (by decide)
  · intro d
    exact append_ne_of_data_get_ne_right _ _ _ 0 (by decide) (by decide)
  · intro msg
    exact append_ne_of_data_get_ne_right _ _ _ 0 (by decide) (by decide)
  · intro i
    exact append_ne_of_data_get_ne_right _ _ _ 25 (by decide) (by decide)

/-- Witness for C7: the send branch for a concrete user and a concrete
successful response produces the interim message and one outcome line. -/
theorem C7_witness :
    ∃ o, (processUpdate sampleSecrets sampleHttp
        (singleUser ⟨"await_sender", "Hello", "World", ""⟩)
        (some ⟨0, 0, "Alice"⟩)).2.1 =
      [⟨0, "Отправляю письмо...", ReplyMarkup.plain⟩,
       ⟨0, outcomeText o ++ finalSuffix, ReplyMarkup.initialKeyboard⟩] :=
  (C7_amended sampleSecrets sampleHttp (singleUser ⟨"await_sender", "Hello", "World", ""⟩)
    ⟨0, 0, "Alice"⟩ ⟨"await_sender", "Hello", "World", ""⟩ (by decide) rfl rfl).1

/-- Claim C3: for every send attempt and every HTTP outcome, the record is set
back to phase `initial` and the final message re-presents the one-button
keyboard, the `await_sender` branch emitting exactly two messages (interim
acknowledgment and outcome line); every other branch of the loop — `/start`,
no record, and the three remaining phases — emits exactly one message and
issues no email request. -/
theorem C3_every_outcome_resets :
    (∀ (secrets : Secrets) (http : HttpResult) (st : States) (m : IncomingMessage)
        (s : UserState), st m.userId = some s → s.state = "await_sender" →
        trimSpace m.text ≠ "/start" →
        ((processUpdate secrets http st (some m)).1 m.userId).map UserState.state =
          some "initial" ∧
        (processUpdate secrets http st (some m)).2.1 =
          [⟨m.chatId, "Отправляю письмо...", ReplyMarkup.plain⟩,
           ⟨m.chatId,
             outcomeText (classifyOutcome (SendEmailViaUnisender secrets.unisenderAPIKey
               secrets.targetEmail secrets.senderEmail s.subject s.body
               (trimSpace m.text) http).2) ++ finalSuffix,
             ReplyMarkup.initialKeyboard⟩]) ∧
    (∀ (secrets : Secrets) (http : HttpResult) (st : States) (m : IncomingMessage),
        trimSpace m.text = "/start" →
        (processUpdate secrets http st (some m)).2.1.length = 1 ∧
        (processUpdate secrets http st (some m)).2.2 = []) ∧
    (∀ (secrets : Secrets) (http : HttpResult) (st : States) (m : IncomingMessage),
        trimSpace m.text ≠ "/start" → st m.userId = none →
        (processUpdate secrets http st (some m)).2.1.length = 1 ∧
        (processUpdate secrets http st (some m)).2.2 = []) ∧
    (∀ (secrets : Secrets) (http : HttpResult) (st : States) (m : IncomingMessage)
        (s : UserState), trimSpace m.text ≠ "/start" → st m.userId = some s →
        (s.state = "initial" ∨ s.state = "await_subject" ∨ s.state = "await_body") →
        (processUpdate secrets http st (some m)).2.1.length = 1 ∧
        (processUpdate secrets http st (some m)).2.2 = []) := by
  refine ⟨?_, ?_, ?_, ?_⟩
  · intro secrets http st m s hs hsender h1
    rw [processUpdate_awaitSender secrets http st m s h1 hs hsender]
    exact ⟨by simp [setState], rfl⟩
  · intro secrets http st m h
    rw [processUpdate_start secrets http st m h]
    exact ⟨rfl, rfl⟩
  · intro secrets http st m h1 h2
    rw [processUpdate_noRecord secrets http st m h1 h2]
    exact ⟨rfl, rfl⟩
  · intro secrets http st m s h1 hs hphase
    rcases hphase with hp | hp | hp
    · by_cases hb : trimSpace m.text = NEW_LETTER_BUTTON_TEXT
      · rw [processUpdate_newLetter secrets http st m s hs hp hb]
        exact ⟨rfl, rfl⟩
      · rw [processUpdate_stray secrets http st m s h1 hs hp hb]
        exact ⟨rfl, rfl⟩
    · rw [processUpdate_awaitSubject secrets http st m s h1 hs hp]
      exact ⟨rfl, rfl⟩
    · rw [processUpdate_awaitBody secrets http st m s h1 hs hp]
      exact ⟨rfl, rfl⟩

/-- Witness for C3: the send branch at a concrete record, with the sample
successful response. -/
theorem C3_witness :
    ((processUpdate sampleSecrets sampleHttp
        (singleUser ⟨"await_sender", "Hello", "World", ""⟩)
        (some ⟨0, 0, "Alice"⟩)).1 0).map UserState.state = some "initial" ∧
    (processUpdate sampleSecrets sampleHttp
        (singleUser ⟨"await_sender", "Hello", "World", ""⟩)
        (some ⟨0, 0, "Alice"⟩)).2.1 =
      [⟨0, "Отправляю письмо...", ReplyMarkup.plain⟩,
       ⟨0, outcomeText (classifyOutcome (SendEmailViaUnisender
            sampleSecrets.unisenderAPIKey sampleSecrets.targetEmail
            sampleSecrets.senderEmail "Hello" "World" (trimSpace "Alice")
            sampleHttp).2) ++ finalSuffix,
          ReplyMarkup.initialKeyboard⟩] :=
  C3_every_outcome_resets.1 sampleSecrets sampleHttp
    (singleUser ⟨"await_sender", "Hello", "World", ""⟩) ⟨0, 0, "Alice"⟩
    ⟨"await_sender", "Hello", "World", ""⟩ rfl rfl (by decide)

/-- Claim C2: the mailer-plus-classifier pipeline maps a connection failure or
a non-decodable body to `transportError`, a non-empty top-level `error`
string to `providerError`, a result payload unmarshalling to a non-empty id
list to `success` on the first id, and everything else to
`ambiguousSuccess`; in particular `{"result": [123,456], "error": ""}` (the
spec writes the raw `result` sub-document in quotes, as logged by
`Raw result: %s`) yields `success 123`, `{"error": "invalid_api_key"}` yields
`providerError "invalid_api_key"`, and `{"result": {}, "error": ""}` yields
`ambiguousSuccess`. -/
theorem C2_outcome_classification :
    (∀ apiKey targetEmail senderEmail subject body senderName detail,
        classifyOutcome (SendEmailViaUnisender apiKey targetEmail senderEmail subject body
          senderName (HttpResult.connError detail)).2 =
        EmailSendOutcome.transportError ("ошибка HTTP запроса: " ++ detail)) ∧
    (∀ apiKey targetEmail senderEmail subject body senderName detail,
        classifyOutcome (SendEmailViaUnisender apiKey targetEmail senderEmail subject body
          senderName (HttpResult.invalidJsonBody detail)).2 =
        EmailSendOutcome.transportError ("ошибка декодирования ответа: " ++ detail)) ∧
    (∀ apiKey targetEmail senderEmail subject body senderName j,
        decodeUnisenderResponse j = none →
        classifyOutcome (SendEmailViaUnisender apiKey targetEmail senderEmail subject body
          senderName (HttpResult.body j)).2 =
        EmailSendOutcome.transportError "ошибка декодирования ответа: несоответствие типа") ∧
    (∀ r : UnisenderResponse, r.error ≠ "" →
        classifyOutcome (Except.ok r) = EmailSendOutcome.providerError r.error) ∧
    (∀ (r : UnisenderResponse) (firstId : Int) (rest : List Int), r.error = "" →
        unmarshalInt64Array r.result = some (firstId :: rest) →
        classifyOutcome (Except.ok r) = EmailSendOutcome.success firstId) ∧
    (∀ r : UnisenderResponse, r.error = "" →
        (unmarshalInt64Array r.result = none ∨ unmarshalInt64Array r.result = some []) →
        classifyOutcome (Except.ok r) = EmailSendOutcome.ambiguousSuccess) ∧
    classifyOutcome (SendEmailViaUnisender "k" "t" "s" "sub" "b" "n"
        (HttpResult.body (Json.obj [("result", Json.arr [Json.num 123, Json.num 456]),
          ("error", Json.str "")]))).2 = EmailSendOutcome.success 123 ∧
    classifyOutcome (SendEmailViaUnisender "k" "t" "s" "sub" "b" "n"
        (HttpResult.body (Json.obj [("error", Json.str "invalid_api_key")]))).2 =
      EmailSendOutcome.providerError "invalid_api_key" ∧
    classifyOutcome (SendEmailViaUnisender "k" "t" "s" "sub" "b" "n"
        (HttpResult.body (Json.obj [("result", Json.obj []),
          ("error", Json.str "")]))).2 = EmailSendOutcome.ambiguousSuccess := by
  refine ⟨fun _ _ _ _ _ _ _ => rfl, fun _ _ _ _ _ _ _ => rfl, ?_, ?_, ?_, ?_,
    by decide, by decide, by decide⟩
  · intro apiKey targetEmail senderEmail subject body senderName j hj
    simp [SendEmailViaUnisender, hj, classifyOutcome]
  · intro r h
    simp [classifyOutcome, h]
  · intro r firstId rest h hu
    simp [classifyOutcome, h, hu]
  · intro r h hd
    rcases hd with hd | hd <;> simp [classifyOutcome, h, hd]

/-- Witness for C2: the provider-error clause at the concrete decoded
response of `{"error": "invalid_api_key"}`. -/
theorem C2_witness :
    classifyOutcome (Except.ok (⟨none, "invalid_api_key"⟩ : UnisenderResponse)) =
      EmailSendOutcome.providerError "invalid_api_key" :=
  C2_outcome_classification.2.2.2.1 ⟨none, "invalid_api_key"⟩ (by decide)

/-- Counterexample to claim C1 as stated: for a user at phase `initial`, the
valid four-message sequence button, `" Hello "`, `"World"`, `"Alice"` issues
exactly one email request, but its `subject` field is `"Hello"`, not the
supplied text `" Hello "` — the loop trims the text before storing it. -/
theorem C1_counterexample :
    (processUpdates sampleSecrets sampleHttp (singleUser ⟨"initial", "", "", ""⟩)
        [some ⟨0, 0, NEW_LETTER_BUTTON_TEXT⟩, some ⟨0, 0, " Hello "⟩,
         some ⟨0, 0, "World"⟩, some ⟨0, 0, "Alice"⟩]).2.2 =
      [[("format", "json"), ("api_key", "key"), ("sender_name", "Alice"),
        ("sender_email", "sender@example.com"), ("email", "target@example.com"),
        ("subject", "Hello"), ("body", "World"), ("list_id", "1"), ("error_checking", "1")]] ∧
    ("Hello" : String) ≠ " Hello " :=
  ⟨by decide, by decide⟩

/-- Claim C1 as amended: for every user whose record is at phase `initial`,
processing the button label and then three texts none of which
whitespace-trims to `/start` issues exactly one email request whose
`subject`, `body` and `sender_name` fields are the whitespace-trimmed
supplied texts, and leaves the record at phase `initial`. -/
theorem C1_amended (secrets : Secrets) (http : HttpResult) (st : States) (uid cid : Int)
    (s : UserState) (hs : st uid = some s) (hini : s.state = "initial")
    (t1 t2 t3 : String) (h1 : trimSpace t1 ≠ "/start") (h2 : trimSpace t2 ≠ "/start")
    (h3 : trimSpace t3 ≠ "/start") :
    (processUpdates secrets http st
        [some ⟨uid, cid, NEW_LETTER_BUTTON_TEXT⟩, some ⟨uid, cid, t1⟩,
         some ⟨uid, cid, t2⟩, some ⟨uid, cid, t3⟩]).2.2 =
      [[("format", "json"), ("api_key", secrets.unisenderAPIKey),
        ("sender_name", trimSpace t3), ("sender_email", secrets.senderEmail),
        ("email", secrets.targetEmail), ("subject", trimSpace t1),
        ("body", trimSpace t2), ("list_id", "1"), ("error_checking", "1")]] ∧
    (processUpdates secrets http st
        [some ⟨uid, cid, NEW_LETTER_BUTTON_TEXT⟩, some ⟨uid, cid, t1⟩,
         some ⟨uid, cid, t2⟩, some ⟨uid, cid, t3⟩]).1 uid =
      some ⟨"initial", trimSpace t1, trimSpace t2, trimSpace t3⟩ := by
  have e1 := processUpdate_newLetter secrets http st ⟨uid, cid, NEW_LETTER_BUTTON_TEXT⟩ s
    hs hini rfl
  have e2 := processUpdate_awaitSubject secrets http
    (setState st uid ⟨"await_subject", s.subject, s.body, s.senderName⟩)
    ⟨uid, cid, t1⟩ ⟨"await_subject", s.subject, s.body, s.senderName⟩ h1
    (by simp [setState]) rfl
  have e3 := processUpdate_awaitBody secrets http
    (setState (setState st uid ⟨"await_subject", s.subject, s.body, s.senderName⟩) uid
      ⟨"await_body", trimSpace t1, s.body, s.senderName⟩)
    ⟨uid, cid, t2⟩ ⟨"await_body", trimSpace t1, s.body, s.senderName⟩ h2
    (by simp [setState]) rfl
  have e4 := processUpdate_awaitSender secrets http
    (setState (setState (setState st uid ⟨"await_subject", s.subject, s.body, s.senderName⟩)
        uid ⟨"await_body", trimSpace t1, s.body, s.senderName⟩) uid
      ⟨"await_sender", trimSpace t1, trimSpace t2, s.senderName⟩)
    ⟨uid, cid, t3⟩ ⟨"await_sender", trimSpace t1, trimSpace t2, s.senderName⟩ h3
    (by simp [setState]) rfl
  simp only [processUpdates, e1, e2, e3, e4, sendEmail_formData]
  exact ⟨rfl, by simp [setState]⟩

/-- Witness for C1: the scenario of the spec — `"Hello"`, `"World"`, `"Alice"` —
for a user at phase `initial`, with the sample successful response. -/
theorem C1_witness :
    (processUpdates sampleSecrets sampleHttp (singleUser ⟨"initial", "", "", ""⟩)
        [some ⟨0, 0, NEW_LETTER_BUTTON_TEXT⟩, some ⟨0, 0, "Hello"⟩,
         some ⟨0, 0, "World"⟩, some ⟨0, 0, "Alice"⟩]).2.2 =
      [[("format", "json"), ("api_key", sampleSecrets.unisenderAPIKey),
        ("sender_name", trimSpace "Alice"), ("sender_email", sampleSecrets.senderEmail),
        ("email", sampleSecrets.targetEmail), ("subject", trimSpace "Hello"),
        ("body", trimSpace "World"), ("list_id", "1"), ("error_checking", "1")]] ∧
    (processUpdates sampleSecrets sampleHttp (singleUser ⟨"initial", "", "", ""⟩)
        [some ⟨0, 0, NEW_LETTER_BUTTON_TEXT⟩, some ⟨0, 0, "Hello"⟩,
         some ⟨0, 0, "World"⟩, some ⟨0, 0, "Alice"⟩]).1 0 =
      some ⟨"initial", trimSpace "Hello", trimSpace "World", trimSpace "Alice"⟩ :=
  C1_amended sampleSecrets sampleHttp (singleUser ⟨"initial", "", "", ""⟩) 0 0
    ⟨"initial", "", "", ""⟩ rfl rfl "Hello" "World" "Alice"
    (by decide) (by decide) (by decide)

end AviaBot
